import Mathlib

/-!
Shallow embedding of the HTTP gateway proxy pipeline (Go package httpg):
the direct-response handler, the ReverseProxy Director closure (scheme and
host resolution, query sanitization, User-Agent default, WebSocket header
repair, forwarded-header stripping, Origin rewrite, SigV4 signing control
flow), the dispatch error classifier, and the WebSocket helpers.

Go header maps (map[string][]string) are modelled as association lists over
exact key strings; the call sites of Set/Get/Del all pass keys that are
already in canonical MIME form, and fixWebSocketHeaders deliberately uses
raw map indexing/assignment/delete, so no key canonicalization is modelled.
-/

namespace Httpg

/-- Go map[string][]string: association list, first binding wins. -/
abbrev Header := List (String × List String)

/-- Presence-aware Go map read, as in the two-result form v, ok := m[k]. -/
def hlookup : Header → String → Option (List String)
  | [], _ => none
  | (k, v) :: t, key => if k = key then some v else hlookup t key

/-- Plain Go map read: an absent key yields the zero value (nil slice). -/
def hindex (h : Header) (key : String) : List String := (hlookup h key).getD []

/-- Go map assignment m[key] = v: replaces the binding or appends a fresh one.
Assigning nil still creates the entry, exactly as in Go. -/
def hassign : Header → String → List String → Header
  | [], key, v => [(key, v)]
  | (k, w) :: t, key, v => if k = key then (key, v) :: t else (k, w) :: hassign t key v

/-- Go delete(m, key). -/
def herase : Header → String → Header
  | [], _ => []
  | (k, v) :: t, key => if k = key then herase t key else (k, v) :: herase t key

/-- net/http Header.Set (the call sites pass canonical keys). -/
def hset (h : Header) (key v : String) : Header := hassign h key [v]

/-- net/http Header.Get: first value bound to the key, or the empty string
when the key is absent or its value list is empty. -/
def hget (h : Header) (key : String) : String :=
  match hlookup h key with
  | some (v :: _) => v
  | _ => ""

/-- net/http Header.Del (the call sites pass canonical keys). -/
def hdel (h : Header) (key : String) : Header := herase h key

/-- OWS as trimmed by httpguts token matching: space and horizontal tab. -/
def isOWS (c : Char) : Bool := c = ' ' || c = '\t'

def trimOWSList (cs : List Char) : List Char :=
  ((cs.dropWhile isOWS).reverse.dropWhile isOWS).reverse

/-- ASCII lowercasing, as used by httpguts token comparison. -/
def lowerChar (c : Char) : Char :=
  if 'A' ≤ c && c ≤ 'Z' then Char.ofNat (c.toNat + 32) else c

def lowerList (cs : List Char) : List Char := cs.map lowerChar

/-- strings.EqualFold on the ASCII range relevant to the header tokens here. -/
def equalFold (a b : String) : Bool := lowerList a.data == lowerList b.data

/-- Split a header value on commas (accumulator holds the current chunk
reversed), as httpguts iterates comma-separated tokens. -/
def splitComma : List Char → List Char → List (List Char)
  | [], acc => [acc.reverse]
  | c :: rest, acc =>
    if c = ',' then acc.reverse :: splitComma rest [] else splitComma rest (c :: acc)

/-- httpguts.HeaderValuesContainsToken: some value, split on commas and
OWS-trimmed, contains the token up to ASCII case. -/
def headerValuesContainsToken (vals : List String) (token : String) : Bool :=
  vals.any fun v =>
    (splitComma v.data []).any fun t => lowerList (trimOWSList t) == lowerList token.data

/-- The fields of *http.Request that the pipeline reads or writes. -/
structure Request where
  urlScheme : String
  urlHost : String
  rawQuery : String
  host : String
  requestURI : String
  proto : String
  protoMajor : Nat
  protoMinor : Nat
  header : Header
deriving DecidableEq

/-- isWebSocketUpgrade: Connection contains the token Upgrade and the Upgrade
header equals websocket, both case-insensitively. -/
def isWebSocketUpgrade (req : Request) : Bool :=
  headerValuesContainsToken (hindex req.header "Connection") "Upgrade" &&
    equalFold (hget req.header "Upgrade") "websocket"

/-- fixWebSocketHeaders: on an upgrade request, copy the five canonical-cased
Sec-Websocket-* entries to their mixed-case Sec-WebSocket-* keys by raw map
assignment (creating the entry even when the source key is absent), then
delete the five canonical-cased keys; otherwise a no-op. -/
def fixWebSocketHeaders (outReq : Request) : Request :=
  if !isWebSocketUpgrade outReq then outReq
  else
    let h := outReq.header
    let h := hassign h "Sec-WebSocket-Key" (hindex h "Sec-Websocket-Key")
    let h := hassign h "Sec-WebSocket-Extensions" (hindex h "Sec-Websocket-Extensions")
    let h := hassign h "Sec-WebSocket-Accept" (hindex h "Sec-Websocket-Accept")
    let h := hassign h "Sec-WebSocket-Protocol" (hindex h "Sec-Websocket-Protocol")
    let h := hassign h "Sec-WebSocket-Version" (hindex h "Sec-Websocket-Version")
    let h := herase h "Sec-Websocket-Key"
    let h := herase h "Sec-Websocket-Extensions"
    let h := herase h "Sec-Websocket-Accept"
    let h := herase h "Sec-Websocket-Protocol"
    let h := herase h "Sec-Websocket-Version"
    { outReq with header := h }

structure URL where
  scheme : String
  host : String
deriving DecidableEq

/-- net/url URL.String() for the scheme://host URLs carried by upstreams
(upstream URLs in this pipeline have no path, query, user or fragment). -/
def urlString (u : URL) : String := u.scheme ++ "://" ++ u.host

structure Upstream where
  url : URL
  hostPort : String
  isUser : Bool
deriving DecidableEq

structure TLSConfig where
  clientCertificate : Option Unit
deriving DecidableEq

structure Sigv4Opts where
  accessKeyID : String
  secretName : String
  service : String
  region : String
deriving DecidableEq

structure HTTPAuth where
  sigv4 : Option Sigv4Opts
deriving DecidableEq

structure HTTPConfig where
  auth : Option HTTPAuth
deriving DecidableEq

structure ServiceConfig where
  clientCertificate : Option Unit
  tls : Option TLSConfig
  http : Option HTTPConfig
deriving DecidableEq

/-- cfg != nil && (cfg.ClientCertificate != nil || (cfg.Tls != nil &&
cfg.Tls.ClientCertificate != nil)), the unknown-scheme fallback guard. -/
def cfgHasClientCert : Option ServiceConfig → Bool
  | none => false
  | some cfg =>
    cfg.clientCertificate.isSome ||
      (match cfg.tls with
       | some t => t.clientCertificate.isSome
       | none => false)

/-- cfg.GetHttp().GetAuth().GetSigv4() with Go nil-propagation on getters. -/
def cfgSigv4 (cfg : Option ServiceConfig) : Option Sigv4Opts :=
  ((cfg.bind ServiceConfig.http).bind HTTPConfig.auth).bind HTTPAuth.sigv4

/-- The scheme switch of the Director, in source order: https/http pass
through, ws to http, grpc/h2c to http, wss to https, and the default arm
picks https exactly when a client certificate is configured. -/
def resolveScheme (up : Upstream) (cfg : Option ServiceConfig) : String :=
  if up.url.scheme = "https" || up.url.scheme = "http" then up.url.scheme
  else if up.url.scheme = "ws" then "http"
  else if up.url.scheme = "grpc" || up.url.scheme = "h2c" then "http"
  else if up.url.scheme = "wss" then "https"
  else if cfgHasClientCert cfg then "https" else "http"

/-- strings.ReplaceAll(q, semicolon, ampersand): both patterns are single
characters, so the replacement is character-wise. -/
def replaceSemicolons (s : String) : String :=
  String.mk (s.data.map fun c => if c = ';' then '&' else c)

/-- Outcome of secretMan.GetByName for the signing secret (external
secret-store collaborator, resolved fresh per request). -/
inductive FetchResult
  | ok (secret : String)
  | err
deriving DecidableEq

/-- Outcome of sigv4 signer.SignHTTP. On success the signer attaches the
signature headers (Authorization and X-Amz-Date) to the outbound request;
on failure it leaves the request unsigned. -/
inductive SignResult
  | ok (authorization : String) (amzDate : String)
  | err
deriving DecidableEq

/-- Director step 1: outReq.URL.Scheme from the scheme switch. -/
def stepScheme (up : Upstream) (cfg : Option ServiceConfig) (r : Request) : Request :=
  { r with urlScheme := resolveScheme up cfg }

/-- Director step 2: outReq.Host = upstream.URL.Host. -/
def stepHost (up : Upstream) (r : Request) : Request :=
  { r with host := up.url.host }

/-- Director step 3: outReq.URL.Host is HostPort for a user-supplied
upstream, else the upstream URL host. -/
def stepURLHost (up : Upstream) (r : Request) : Request :=
  { r with urlHost := if up.isUser then up.hostPort else up.url.host }

/-- Director steps 4 and 5: semicolon-to-ampersand query rewrite and
RequestURI clearing. -/
def stepQuery (r : Request) : Request :=
  { r with rawQuery := replaceSemicolons r.rawQuery, requestURI := "" }

/-- Director step 6: default User-Agent, triggered by key absence. -/
def stepUserAgent (r : Request) : Request :=
  if (hlookup r.header "User-Agent").isNone then
    { r with header := hset r.header "User-Agent" "octelium" }
  else r

/-- Director step 8: protocol-version override from the HTTP/2 judgement. -/
def stepProto (isHTTP2 : Bool) (r : Request) : Request :=
  if isHTTP2 then { r with proto := "HTTP/2", protoMajor := 2, protoMinor := 0 }
  else { r with proto := "HTTP/1.1", protoMajor := 1, protoMinor := 1 }

/-- Director step 9: topology-header stripping for non-managed services. -/
def stepStripForwarded (isManagedSvc : Bool) (r : Request) : Request :=
  if !isManagedSvc then
    let h0 := hdel r.header "Forwarded"
    let h1 := hdel h0 "X-Forwarded-For"
    let h2 := hdel h1 "X-Forwarded-Host"
    { r with header := hdel h2 "X-Forwarded-Proto" }
  else r

/-- Director step 10: Origin rewrite when Header.Get yields a non-empty
value. -/
def stepOrigin (up : Upstream) (r : Request) : Request :=
  if hget r.header "Origin" ≠ "" then
    { r with header := hset r.header "Origin" (urlString up.url) }
  else r

/-- The Director steps before the signing block, composed in source order
(fixWebSocketHeaders is step 7). The isHTTP2 flag stands for
isHTTP2RequestUpstream(outReq, svc), defined outside this excerpt; it only
selects the outbound protocol-version fields. -/
def directorPreSign (up : Upstream) (cfg : Option ServiceConfig)
    (isManagedSvc isHTTP2 : Bool) (req : Request) : Request :=
  stepOrigin up
    (stepStripForwarded isManagedSvc
      (stepProto isHTTP2
        (fixWebSocketHeaders
          (stepUserAgent
            (stepQuery (stepURLHost up (stepHost up (stepScheme up cfg req))))))))

/-- The whole Director closure: the rewriting steps followed by the sigv4
block. On a secret-fetch error the closure logs and falls through; on a
signing-compute error it logs and returns early. Signing is the last step,
so in both failure cases the request it leaves behind is the unsigned
rewritten request. -/
def director (up : Upstream) (cfg : Option ServiceConfig)
    (isManagedSvc isHTTP2 : Bool) (fetch : FetchResult) (signRes : SignResult)
    (req : Request) : Request :=
  let outReq := directorPreSign up cfg isManagedSvc isHTTP2 req
  match cfgSigv4 cfg with
  | none => outReq
  | some _ =>
    match fetch with
    | FetchResult.err => outReq
    | FetchResult.ok _ =>
      match signRes with
      | SignResult.err => outReq
      | SignResult.ok auth date =>
        { outReq with header := hset (hset outReq.header "Authorization" auth) "X-Amz-Date" date }

structure DispatchOutcome where
  outReq : Request
  dispatched : Bool
deriving DecidableEq

/-- httputil.ReverseProxy.ServeHTTP around the Director: the Director
callback has type func of the request and returns no value, and after it
returns the proxy unconditionally hands the rewritten request to the
transport RoundTrip. -/
def reverseProxyServe (up : Upstream) (cfg : Option ServiceConfig)
    (isManagedSvc isHTTP2 : Bool) (fetch : FetchResult) (signRes : SignResult)
    (req : Request) : DispatchOutcome :=
  { outReq := director up cfg isManagedSvc isHTTP2 fetch signRes req, dispatched := true }

/-- The oneof on Service_Spec_Config_HTTP_Response_Direct.Type. -/
inductive DirectType
  | inline (value : String)
  | inlineBytes (value : String)
  | unset
deriving DecidableEq

structure DirectResponse where
  type : DirectType
  contentType : String
  statusCode : Int
deriving DecidableEq

/-- The facets of net/http ResponseWriter the handlers use: the mutable
header map, whether the header block was already written, and the status,
header snapshot and body actually sent on the wire. -/
structure ResponseWriter where
  header : Header
  wroteHeader : Bool
  status : Int
  sentHeader : Header
  body : String
deriving DecidableEq

def initialWriter : ResponseWriter :=
  { header := [], wroteHeader := false, status := 200, sentHeader := [], body := "" }

/-- net/http WriteHeader: the first call fixes the status and snapshots the
header map as the wire header block; later calls are superfluous and
ignored, and later header-map mutations do not reach the wire. -/
def writeHeader (w : ResponseWriter) (code : Int) : ResponseWriter :=
  if w.wroteHeader then w
  else { w with wroteHeader := true, status := code, sentHeader := w.header }

/-- net/http Write: an implicit WriteHeader 200 precedes the first body
write, then the bytes are appended to the body. -/
def writeBody (w : ResponseWriter) (b : String) : ResponseWriter :=
  let w2 := writeHeader w 200
  { w2 with body := w2.body ++ b }

/-- w.Header().Set(key, v). -/
def setHeaderField (w : ResponseWriter) (key v : String) : ResponseWriter :=
  { w with header := hset w.header key v }

/-- The tail of directResponseHandler.ServeHTTP after the body write:
Content-Type when configured, the status code when within 200..599, then
the Server header. -/
def directResponseFinish (d : DirectResponse) (w : ResponseWriter) : ResponseWriter :=
  let w2 := if d.contentType ≠ "" then setHeaderField w "Content-Type" d.contentType else w
  let w3 :=
    if 200 ≤ d.statusCode ∧ d.statusCode ≤ 599 then writeHeader w2 d.statusCode else w2
  setHeaderField w3 "Server" "octelium"

/-- directResponseHandler.ServeHTTP: write the configured body (HTTP 500 and
stop on an unset variant), then Content-Type, status code and Server. -/
def directResponseServeHTTP (d : DirectResponse) (w : ResponseWriter) : ResponseWriter :=
  match d.type with
  | DirectType.inline s => directResponseFinish d (writeBody w s)
  | DirectType.inlineBytes s => directResponseFinish d (writeBody w s)
  | DirectType.unset => writeHeader w 500

/-- Shape of a dispatch error as probed by the ErrorHandler: errors.Is
io.EOF, errors.Is context.Canceled, and errors.As net.Error together with
that net.Error Timeout() flag. -/
structure GoError where
  isEOF : Bool
  isCanceled : Bool
  asNetError : Option Bool
deriving DecidableEq

/-- The ErrorHandler switch: 500 unless EOF (502), canceled (499), or a
net.Error (504 on timeout, else 502), in source order. -/
def classifyError (e : GoError) : Int :=
  if e.isEOF then 502
  else if e.isCanceled then 499
  else
    match e.asNetError with
    | some timeout => if timeout then 504 else 502
    | none => 500

/-- http.StatusText restricted to the codes the classifier can produce; 499
is not in the standard table, so its text is the empty string. -/
def statusText (code : Int) : String :=
  if code = 500 then "Internal Server Error"
  else if code = 502 then "Bad Gateway"
  else if code = 504 then "Gateway Timeout"
  else ""

/-- The ErrorHandler body: WriteHeader with the classified code, then write
http.StatusText of that code as the plain-text body. -/
def errorHandlerServe (e : GoError) (w : ResponseWriter) : ResponseWriter :=
  let statusCode := classifyError e
  writeBody (writeHeader w statusCode) (statusText statusCode)

/-- The ten header keys fixWebSocketHeaders reads, writes or deletes. -/
def wsKeys : List String :=
  ["Sec-WebSocket-Key", "Sec-WebSocket-Extensions", "Sec-WebSocket-Accept",
   "Sec-WebSocket-Protocol", "Sec-WebSocket-Version",
   "Sec-Websocket-Key", "Sec-Websocket-Extensions", "Sec-Websocket-Accept",
   "Sec-Websocket-Protocol", "Sec-Websocket-Version"]

theorem hlookup_assign (h : Header) (key kq : String) (v : List String) :
    hlookup (hassign h key v) kq = if key = kq then some v else hlookup h kq := by
  induction h with
  | nil => simp [hassign, hlookup]
  | cons e t ih =>
    obtain ⟨k, w⟩ := e
    by_cases hk : k = key
    · subst hk
      by_cases hq : k = kq <;> simp [hassign, hlookup, hq]
    · by_cases hq : k = kq
      · subst hq
        have : ¬ key = k := fun hh => hk hh.symm
        simp [hassign, hlookup, hk, this]
      · simp [hassign, hlookup, hk, hq, ih]

theorem hlookup_erase (h : Header) (key kq : String) :
    hlookup (herase h key) kq = if key = kq then none else hlookup h kq := by
  induction h with
  | nil => simp [herase, hlookup]
  | cons e t ih =>
    obtain ⟨k, w⟩ := e
    simp only [herase]
    by_cases hk : k = key
    · rw [if_pos hk, ih]
      by_cases hq : key = kq
      · simp [hq]
      · have hkq : ¬ k = kq := by rw [hk]; exact hq
        simp [hlookup, hq, hkq]
    · rw [if_neg hk]
      by_cases hkq : k = kq
      · have hq : ¬ key = kq := by
          intro hh
          exact hk (by rw [hkq, ← hh])
        simp [hlookup, hq, hkq]
      · simp only [hlookup, if_neg hkq]
        exact ih

theorem hlookup_set (h : Header) (key v : String) (kq : String) :
    hlookup (hset h key v) kq = if key = kq then some [v] else hlookup h kq := by
  simp [hset, hlookup_assign]

theorem hlookup_del (h : Header) (key kq : String) :
    hlookup (hdel h key) kq = if key = kq then none else hlookup h kq := by
  simp [hdel, hlookup_erase]

theorem fixWS_urlScheme (r : Request) :
    (fixWebSocketHeaders r).urlScheme = r.urlScheme := by
  unfold fixWebSocketHeaders
  split <;> rfl

theorem fixWS_hlookup_of_notMem (r : Request) (kq : String) (hk : kq ∉ wsKeys) :
    hlookup (fixWebSocketHeaders r).header kq = hlookup r.header kq := by
  simp only [wsKeys, List.mem_cons, List.not_mem_nil, or_false, not_or] at hk
  obtain ⟨h1, h2, h3, h4, h5, h6, h7, h8, h9, h10⟩ := hk
  unfold fixWebSocketHeaders
  split
  · rfl
  · simp [hlookup_assign, hlookup_erase, Ne.symm h1, Ne.symm h2, Ne.symm h3, Ne.symm h4,
      Ne.symm h5, Ne.symm h6, Ne.symm h7, Ne.symm h8, Ne.symm h9, Ne.symm h10]

theorem hget_assign_ne (h : Header) (key kq : String) (v : List String) (hne : ¬ key = kq) :
    hget (hassign h key v) kq = hget h kq := by
  simp [hget, hlookup_assign, hne]

theorem hget_erase_ne (h : Header) (key kq : String) (hne : ¬ key = kq) :
    hget (herase h key) kq = hget h kq := by
  simp [hget, hlookup_erase, hne]

theorem fixWS_hget_of_notMem (r : Request) (kq : String) (hk : kq ∉ wsKeys) :
    hget (fixWebSocketHeaders r).header kq = hget r.header kq := by
  simp [hget, fixWS_hlookup_of_notMem r kq hk]

theorem stepScheme_header (up : Upstream) (cfg : Option ServiceConfig) (r : Request) :
    (stepScheme up cfg r).header = r.header := rfl

theorem stepHost_header (up : Upstream) (r : Request) :
    (stepHost up r).header = r.header := rfl

theorem stepURLHost_header (up : Upstream) (r : Request) :
    (stepURLHost up r).header = r.header := rfl

theorem stepQuery_header (r : Request) : (stepQuery r).header = r.header := rfl

theorem stepProto_header (b : Bool) (r : Request) :
    (stepProto b r).header = r.header := by
  cases b <;> rfl

theorem stepUserAgent_hlookup_ne (r : Request) (kq : String) (hne : ¬ "User-Agent" = kq) :
    hlookup (stepUserAgent r).header kq = hlookup r.header kq := by
  unfold stepUserAgent
  split <;> simp [hset, hlookup_assign, hne]

theorem stepUserAgent_hlookup_self (r : Request) :
    hlookup (stepUserAgent r).header "User-Agent" =
      if hlookup r.header "User-Agent" = none then some ["octelium"]
      else hlookup r.header "User-Agent" := by
  unfold stepUserAgent
  rcases hc : hlookup r.header "User-Agent" with _ | v <;> simp [hc, hset, hlookup_assign]

theorem stepUserAgent_hget_ne (r : Request) (kq : String) (hne : ¬ "User-Agent" = kq) :
    hget (stepUserAgent r).header kq = hget r.header kq := by
  unfold stepUserAgent
  split
  · simp only [hset]
    exact hget_assign_ne _ _ _ _ hne
  · rfl

theorem stepStrip_managed (r : Request) : stepStripForwarded true r = r := rfl

theorem stepStrip_false_hlookup (r : Request) (kq : String) :
    hlookup (stepStripForwarded false r).header kq =
      if "X-Forwarded-Proto" = kq then none
      else if "X-Forwarded-Host" = kq then none
      else if "X-Forwarded-For" = kq then none
      else if "Forwarded" = kq then none
      else hlookup r.header kq := by
  simp [stepStripForwarded, hdel, hlookup_erase]

theorem stepStrip_hlookup_ne (m : Bool) (r : Request) (kq : String)
    (h1 : ¬ "Forwarded" = kq) (h2 : ¬ "X-Forwarded-For" = kq)
    (h3 : ¬ "X-Forwarded-Host" = kq) (h4 : ¬ "X-Forwarded-Proto" = kq) :
    hlookup (stepStripForwarded m r).header kq = hlookup r.header kq := by
  cases m
  · rw [stepStrip_false_hlookup]
    simp [h1, h2, h3, h4]
  · rfl

theorem stepStrip_hget_ne (m : Bool) (r : Request) (kq : String)
    (h1 : ¬ "Forwarded" = kq) (h2 : ¬ "X-Forwarded-For" = kq)
    (h3 : ¬ "X-Forwarded-Host" = kq) (h4 : ¬ "X-Forwarded-Proto" = kq) :
    hget (stepStripForwarded m r).header kq = hget r.header kq := by
  cases m
  · simp only [stepStripForwarded, Bool.not_false, if_pos]
    simp [hdel, hget_erase_ne, h1, h2, h3, h4]
  · rfl

theorem stepOrigin_hlookup_ne (up : Upstream) (r : Request) (kq : String)
    (hne : ¬ "Origin" = kq) :
    hlookup (stepOrigin up r).header kq = hlookup r.header kq := by
  unfold stepOrigin
  split <;> simp [hset, hlookup_assign, hne]

theorem stepOrigin_hlookup_self (up : Upstream) (r : Request) :
    hlookup (stepOrigin up r).header "Origin" =
      if hget r.header "Origin" ≠ "" then some [urlString up.url]
      else hlookup r.header "Origin" := by
  unfold stepOrigin
  split <;> simp [hset, hlookup_assign, *]

theorem stepUserAgent_urlScheme (r : Request) :
    (stepUserAgent r).urlScheme = r.urlScheme := by
  unfold stepUserAgent
  split <;> rfl

theorem stepProto_urlScheme (b : Bool) (r : Request) :
    (stepProto b r).urlScheme = r.urlScheme := by
  cases b <;> rfl

theorem stepStrip_urlScheme (m : Bool) (r : Request) :
    (stepStripForwarded m r).urlScheme = r.urlScheme := by
  cases m <;> rfl

theorem stepOrigin_urlScheme (up : Upstream) (r : Request) :
    (stepOrigin up r).urlScheme = r.urlScheme := by
  unfold stepOrigin
  split <;> rfl

theorem directorPreSign_urlScheme (up : Upstream) (cfg : Option ServiceConfig)
    (m h2 : Bool) (req : Request) :
    (directorPreSign up cfg m h2 req).urlScheme = resolveScheme up cfg := by
  simp [directorPreSign, stepOrigin_urlScheme, stepStrip_urlScheme, stepProto_urlScheme,
    fixWS_urlScheme, stepUserAgent_urlScheme, stepQuery, stepURLHost, stepHost, stepScheme]

theorem director_urlScheme (up : Upstream) (cfg : Option ServiceConfig)
    (m h2 : Bool) (f : FetchResult) (s : SignResult) (req : Request) :
    (director up cfg m h2 f s req).urlScheme = resolveScheme up cfg := by
  unfold director
  rcases hcs : cfgSigv4 cfg with _ | v <;>
    rcases f with sec | _ <;> rcases s with ⟨a, d⟩ | _ <;>
      simp [hcs, directorPreSign_urlScheme]

/-- C5: the ErrorHandler classifies an end-of-stream error as 502, a
cancellation as 499, a timeout-flagged net.Error as 504, a non-timeout
net.Error as 502 and anything else as 500; cancellation is tested before
the net.Error probe, so a canceled error that also matches net.Error is
still classified 499. -/
theorem claim_C5 (e : GoError) :
    (e.isEOF = true → classifyError e = 502) ∧
    (e.isEOF = false → e.isCanceled = true → classifyError e = 499) ∧
    (e.isEOF = false → e.isCanceled = false → e.asNetError = some true → classifyError e = 504) ∧
    (e.isEOF = false → e.isCanceled = false → e.asNetError = some false → classifyError e = 502) ∧
    (e.isEOF = false → e.isCanceled = false → e.asNetError = none → classifyError e = 500) ∧
    (e.isEOF = false → e.isCanceled = true → e.asNetError.isSome = true → classifyError e = 499) := by
  obtain ⟨eof, canc, net⟩ := e
  cases eof <;> cases canc <;> rcases net with _ | b <;> try cases b
  all_goals decide

/-- C5 witness: a bare end-of-stream error is classified 502. -/
theorem claim_C5_witness :
    ({ isEOF := true, isCanceled := false, asNetError := none } : GoError).isEOF = true ∧
    classifyError { isEOF := true, isCanceled := false, asNetError := none } = 502 :=
  ⟨rfl, (claim_C5 { isEOF := true, isCanceled := false, asNetError := none }).1 rfl⟩

/-- C9: when the classified code is 499 the plain-text body written by the
ErrorHandler is empty, since 499 has no standard status text; for every
other classifiable code the body is the standard non-empty reason phrase. -/
theorem claim_C9 (e : GoError) :
    (classifyError e = 499 → (errorHandlerServe e initialWriter).body = "") ∧
    (classifyError e = 500 → (errorHandlerServe e initialWriter).body = "Internal Server Error") ∧
    (classifyError e = 502 → (errorHandlerServe e initialWriter).body = "Bad Gateway") ∧
    (classifyError e = 504 → (errorHandlerServe e initialWriter).body = "Gateway Timeout") ∧
    (classifyError e ≠ 499 → (errorHandlerServe e initialWriter).body ≠ "") := by
  obtain ⟨eof, canc, net⟩ := e
  cases eof <;> cases canc <;> rcases net with _ | b <;> try cases b
  all_goals decide

/-- C9 witness: a caller-cancellation error is classified 499 and the body
written to the caller is the empty string. -/
theorem claim_C9_witness :
    classifyError { isEOF := false, isCanceled := true, asNetError := none } = 499 ∧
    (errorHandlerServe { isEOF := false, isCanceled := true, asNetError := none }
      initialWriter).body = "" :=
  ⟨by decide, (claim_C9 { isEOF := false, isCanceled := true, asNetError := none }).1 (by decide)⟩

def d201 : DirectResponse :=
  { type := DirectType.inline "hello", contentType := "text/plain", statusCode := 201 }

def d999 : DirectResponse :=
  { type := DirectType.inline "hello", contentType := "text/plain", statusCode := 999 }

/-- C2: evaluation of directResponseHandler.ServeHTTP at the configuration
(Inline hello, text/plain, 201). The body write precedes the Content-Type,
status-code and Server calls, and in net/http the first body write fixes
status 200 and snapshots the headers, so the wire response carries status
200 and neither configured header; the 999 configuration produces the same
wire status and body. This contradicts the documented scenario (201 with
Content-Type and Server set). -/
theorem claim_C2_code_eval :
    (directResponseServeHTTP d201 initialWriter).body = "hello" ∧
    (directResponseServeHTTP d201 initialWriter).status = 200 ∧
    hlookup (directResponseServeHTTP d201 initialWriter).sentHeader "Content-Type" = none ∧
    hlookup (directResponseServeHTTP d201 initialWriter).sentHeader "Server" = none ∧
    (directResponseServeHTTP d999 initialWriter).body = "hello" ∧
    (directResponseServeHTTP d999 initialWriter).status = 200 := by
  decide

def sigv4OptsC1 : Sigv4Opts :=
  { accessKeyID := "AKIDEXAMPLE", secretName := "upstream-secret",
    service := "execute-api", region := "us-east-1" }

def sigv4CfgC1 : Option ServiceConfig :=
  some { clientCertificate := none, tls := none,
         http := some { auth := some { sigv4 := some sigv4OptsC1 } } }

def upstreamC1 : Upstream :=
  { url := { scheme := "https", host := "api.example.com" }, hostPort := "", isUser := false }

def requestC1 : Request :=
  { urlScheme := "https", urlHost := "svc.local", rawQuery := "", host := "svc.local",
    requestURI := "/v1", proto := "HTTP/1.1", protoMajor := 1, protoMinor := 1,
    header := [] }

/-- C1 counterexample: with a SigV4 block configured, a successful secret
fetch and a failing signature computation, the ReverseProxy still dispatches
the outbound request: the Director callback returns no value and cannot
abort the dispatch, so the claimed no-dispatch behavior does not hold. -/
theorem claim_C1_counterexample :
    (cfgSigv4 sigv4CfgC1).isSome = true ∧
    (reverseProxyServe upstreamC1 sigv4CfgC1 false false
      (FetchResult.ok "topsecret") SignResult.err requestC1).dispatched = true := by
  decide

/-- C1 amended: the Director never prevents dispatch. On a secret-fetch
error the request is dispatched unsigned, and on a signature-computation
error the Director merely returns early with the same effect: in both
failure cases the dispatched request is the unsigned rewritten request. -/
theorem claim_C1_amended (up : Upstream) (cfg : Option ServiceConfig)
    (m h2 : Bool) (f : FetchResult) (s sr : SignResult) (sec : String) (req : Request) :
    (reverseProxyServe up cfg m h2 f s req).dispatched = true ∧
    (reverseProxyServe up cfg m h2 (FetchResult.ok sec) SignResult.err req).outReq =
      directorPreSign up cfg m h2 req ∧
    (reverseProxyServe up cfg m h2 FetchResult.err sr req).outReq =
      directorPreSign up cfg m h2 req := by
  refine ⟨rfl, ?_, ?_⟩ <;>
    rcases hcs : cfgSigv4 cfg with _ | v <;> simp [reverseProxyServe, director, hcs]

/-- C4: the Director maps the upstream scheme to the wire scheme https for
https, http for http, http for ws, https for wss, http for grpc and h2c,
and for any other scheme the result is https exactly when the route config
declares a client certificate. -/
theorem claim_C4 (up : Upstream) (cfg : Option ServiceConfig)
    (m h2 : Bool) (f : FetchResult) (s : SignResult) (req : Request) :
    (up.url.scheme = "https" → (director up cfg m h2 f s req).urlScheme = "https") ∧
    (up.url.scheme = "http" → (director up cfg m h2 f s req).urlScheme = "http") ∧
    (up.url.scheme = "ws" → (director up cfg m h2 f s req).urlScheme = "http") ∧
    (up.url.scheme = "wss" → (director up cfg m h2 f s req).urlScheme = "https") ∧
    (up.url.scheme = "grpc" → (director up cfg m h2 f s req).urlScheme = "http") ∧
    (up.url.scheme = "h2c" → (director up cfg m h2 f s req).urlScheme = "http") ∧
    (up.url.scheme ∉ ["https", "http", "ws", "wss", "grpc", "h2c"] →
      (((director up cfg m h2 f s req).urlScheme = "https" ↔ cfgHasClientCert cfg = true) ∧
        (cfgHasClientCert cfg = false → (director up cfg m h2 f s req).urlScheme = "http"))) := by
  have hd := director_urlScheme up cfg m h2 f s req
  refine ⟨?_, ?_, ?_, ?_, ?_, ?_, ?_⟩ <;> intro hs
  · rw [hd]; simp [resolveScheme, hs]
  · rw [hd]; simp [resolveScheme, hs]
  · rw [hd]; simp [resolveScheme, hs]
  · rw [hd]; simp [resolveScheme, hs]
  · rw [hd]; simp [resolveScheme, hs]
  · rw [hd]; simp [resolveScheme, hs]
  · simp only [List.mem_cons, List.not_mem_nil, or_false, not_or] at hs
    obtain ⟨n1, n2, n3, n4, n5, n6⟩ := hs
    rw [hd]
    simp only [resolveScheme, n1, n2, n3, n4, n5, n6]
    cases hcc : cfgHasClientCert cfg <;> simp

/-- C4 witness: an https upstream keeps the https wire scheme. -/
theorem claim_C4_witness :
    upstreamC1.url.scheme = "https" ∧
    (director upstreamC1 none false false FetchResult.err SignResult.err requestC1).urlScheme =
      "https" :=
  ⟨rfl, (claim_C4 upstreamC1 none false false FetchResult.err SignResult.err requestC1).1 rfl⟩

/-- C6: on a request satisfying the WebSocket-upgrade predicate, each of the
five handshake headers afterwards appears only under its mixed-case key, and
the value stored there is exactly the pre-normalization value of the
canonical-cased key; on a non-upgrade request the whole request, headers
included, is byte-identical before and after. -/
theorem claim_C6 (req : Request) :
    (isWebSocketUpgrade req = true →
      (hlookup (fixWebSocketHeaders req).header "Sec-WebSocket-Key" =
          some (hindex req.header "Sec-Websocket-Key") ∧
        hlookup (fixWebSocketHeaders req).header "Sec-Websocket-Key" = none) ∧
      (hlookup (fixWebSocketHeaders req).header "Sec-WebSocket-Extensions" =
          some (hindex req.header "Sec-Websocket-Extensions") ∧
        hlookup (fixWebSocketHeaders req).header "Sec-Websocket-Extensions" = none) ∧
      (hlookup (fixWebSocketHeaders req).header "Sec-WebSocket-Accept" =
          some (hindex req.header "Sec-Websocket-Accept") ∧
        hlookup (fixWebSocketHeaders req).header "Sec-Websocket-Accept" = none) ∧
      (hlookup (fixWebSocketHeaders req).header "Sec-WebSocket-Protocol" =
          some (hindex req.header "Sec-Websocket-Protocol") ∧
        hlookup (fixWebSocketHeaders req).header "Sec-Websocket-Protocol" = none) ∧
      (hlookup (fixWebSocketHeaders req).header "Sec-WebSocket-Version" =
          some (hindex req.header "Sec-Websocket-Version") ∧
        hlookup (fixWebSocketHeaders req).header "Sec-Websocket-Version" = none)) ∧
    (isWebSocketUpgrade req = false → fixWebSocketHeaders req = req) := by
  constructor
  · intro hup
    simp [fixWebSocketHeaders, hup, hindex, hlookup_assign, hlookup_erase]
  · intro hup
    simp [fixWebSocketHeaders, hup]

/-- C6 witness: a concrete upgrade request whose Sec-Websocket-Key is abc. -/
def wsRequest : Request :=
  { urlScheme := "http", urlHost := "a", rawQuery := "", host := "a",
    requestURI := "/chat", proto := "HTTP/1.1", protoMajor := 1, protoMinor := 1,
    header := [("Connection", ["keep-alive, Upgrade"]), ("Upgrade", ["WebSocket"]),
               ("Sec-Websocket-Key", ["abc"])] }

/-- C6 witness: on the concrete upgrade request the key header moves to its
mixed-case spelling with its value intact and the canonical key is gone. -/
theorem claim_C6_witness :
    isWebSocketUpgrade wsRequest = true ∧
    (hlookup (fixWebSocketHeaders wsRequest).header "Sec-WebSocket-Key" =
        some (hindex wsRequest.header "Sec-Websocket-Key") ∧
      hlookup (fixWebSocketHeaders wsRequest).header "Sec-Websocket-Key" = none) :=
  ⟨by decide, ((claim_C6 wsRequest).1 (by decide)).1⟩

/-- C10: on an upgrade request the normalizer unconditionally creates the
five mixed-case entries, even when the canonical-cased original is absent,
in which case the created entry holds the nil value list; and it
unconditionally deletes all five canonical-cased keys. -/
theorem claim_C10 (req : Request) (hup : isWebSocketUpgrade req = true) :
    ((hlookup (fixWebSocketHeaders req).header "Sec-WebSocket-Key").isSome = true ∧
      (hlookup req.header "Sec-Websocket-Key" = none →
        hlookup (fixWebSocketHeaders req).header "Sec-WebSocket-Key" = some []) ∧
      hlookup (fixWebSocketHeaders req).header "Sec-Websocket-Key" = none) ∧
    ((hlookup (fixWebSocketHeaders req).header "Sec-WebSocket-Extensions").isSome = true ∧
      (hlookup req.header "Sec-Websocket-Extensions" = none →
        hlookup (fixWebSocketHeaders req).header "Sec-WebSocket-Extensions" = some []) ∧
      hlookup (fixWebSocketHeaders req).header "Sec-Websocket-Extensions" = none) ∧
    ((hlookup (fixWebSocketHeaders req).header "Sec-WebSocket-Accept").isSome = true ∧
      (hlookup req.header "Sec-Websocket-Accept" = none →
        hlookup (fixWebSocketHeaders req).header "Sec-WebSocket-Accept" = some []) ∧
      hlookup (fixWebSocketHeaders req).header "Sec-Websocket-Accept" = none) ∧
    ((hlookup (fixWebSocketHeaders req).header "Sec-WebSocket-Protocol").isSome = true ∧
      (hlookup req.header "Sec-Websocket-Protocol" = none →
        hlookup (fixWebSocketHeaders req).header "Sec-WebSocket-Protocol" = some []) ∧
      hlookup (fixWebSocketHeaders req).header "Sec-Websocket-Protocol" = none) ∧
    ((hlookup (fixWebSocketHeaders req).header "Sec-WebSocket-Version").isSome = true ∧
      (hlookup req.header "Sec-Websocket-Version" = none →
        hlookup (fixWebSocketHeaders req).header "Sec-WebSocket-Version" = some []) ∧
      hlookup (fixWebSocketHeaders req).header "Sec-Websocket-Version" = none) := by
  refine ⟨⟨?_, ?_, ?_⟩, ⟨?_, ?_, ?_⟩, ⟨?_, ?_, ?_⟩, ⟨?_, ?_, ?_⟩, ⟨?_, ?_, ?_⟩⟩ <;>
    simp [fixWebSocketHeaders, hup, hindex, hlookup_assign, hlookup_erase] <;>
    (intro habs
     simp [habs])

/-- C10 witness: on the concrete upgrade request, which carries none of the
other four canonical headers, the mixed-case Version entry is created with
the nil value list and the canonical Version key is absent. -/
theorem claim_C10_witness :
    isWebSocketUpgrade wsRequest = true ∧
    hlookup wsRequest.header "Sec-Websocket-Version" = none ∧
    (hlookup (fixWebSocketHeaders wsRequest).header "Sec-WebSocket-Version" = some [] ∧
      hlookup (fixWebSocketHeaders wsRequest).header "Sec-Websocket-Version" = none) :=
  ⟨by decide, by decide,
    ⟨((claim_C10 wsRequest (by decide)).2.2.2.2).2.1 (by decide),
     ((claim_C10 wsRequest (by decide)).2.2.2.2).2.2⟩⟩

theorem director_hlookup_nonsign (up : Upstream) (cfg : Option ServiceConfig)
    (m h2 : Bool) (f : FetchResult) (s : SignResult) (req : Request) (kq : String)
    (ha : ¬ "Authorization" = kq) (hd : ¬ "X-Amz-Date" = kq) :
    hlookup (director up cfg m h2 f s req).header kq =
      hlookup (directorPreSign up cfg m h2 req).header kq := by
  unfold director
  rcases hcs : cfgSigv4 cfg with _ | v
  · simp [hcs]
  · rcases f with sec | _
    · rcases s with ⟨a, d⟩ | _
      · simp [hcs, hset, hlookup_assign, ha, hd]
      · simp [hcs]
    · simp [hcs]

/-- C3: for a non-managed-service target the Director leaves none of the
four topology headers on the outbound request; for a managed-service target
it leaves all four exactly as they were on the inbound request. -/
theorem claim_C3 (up : Upstream) (cfg : Option ServiceConfig) (h2 : Bool)
    (f : FetchResult) (s : SignResult) (req : Request) :
    (hlookup (director up cfg false h2 f s req).header "Forwarded" = none ∧
      hlookup (director up cfg false h2 f s req).header "X-Forwarded-For" = none ∧
      hlookup (director up cfg false h2 f s req).header "X-Forwarded-Host" = none ∧
      hlookup (director up cfg false h2 f s req).header "X-Forwarded-Proto" = none) ∧
    (hlookup (director up cfg true h2 f s req).header "Forwarded" =
        hlookup req.header "Forwarded" ∧
      hlookup (director up cfg true h2 f s req).header "X-Forwarded-For" =
        hlookup req.header "X-Forwarded-For" ∧
      hlookup (director up cfg true h2 f s req).header "X-Forwarded-Host" =
        hlookup req.header "X-Forwarded-Host" ∧
      hlookup (director up cfg true h2 f s req).header "X-Forwarded-Proto" =
        hlookup req.header "X-Forwarded-Proto") := by
  refine ⟨⟨?_, ?_, ?_, ?_⟩, ⟨?_, ?_, ?_, ?_⟩⟩ <;>
    rw [director_hlookup_nonsign _ _ _ _ _ _ _ _ (by decide) (by decide)] <;>
    simp [directorPreSign, stepOrigin_hlookup_ne, stepStrip_managed, stepStrip_false_hlookup,
      stepProto_header, fixWS_hlookup_of_notMem, stepUserAgent_hlookup_ne, stepQuery_header,
      stepURLHost_header, stepHost_header, stepScheme_header, wsKeys]

/-- C7: a request whose header map lacks the User-Agent key entirely gets
the fixed product string as outbound User-Agent; a request whose map
carries the key with an empty-string value is left untouched, since key
presence rather than value emptiness is the trigger. -/
theorem claim_C7 (up : Upstream) (cfg : Option ServiceConfig) (m h2 : Bool)
    (f : FetchResult) (s : SignResult) (req : Request) :
    (hlookup req.header "User-Agent" = none →
      hlookup (director up cfg m h2 f s req).header "User-Agent" = some ["octelium"]) ∧
    (hlookup req.header "User-Agent" = some [""] →
      hlookup (director up cfg m h2 f s req).header "User-Agent" = some [""]) := by
  constructor <;> intro hua <;>
    rw [director_hlookup_nonsign _ _ _ _ _ _ _ _ (by decide) (by decide)] <;>
    simp [directorPreSign, stepOrigin_hlookup_ne, stepStrip_hlookup_ne, stepProto_header,
      fixWS_hlookup_of_notMem, stepUserAgent_hlookup_self, stepQuery_header,
      stepURLHost_header, stepHost_header, stepScheme_header, wsKeys, hua]

/-- C7 witness: a request with no User-Agent key leaves the Director with
User-Agent set to the product string. -/
theorem claim_C7_witness :
    hlookup requestC1.header "User-Agent" = none ∧
    hlookup (director upstreamC1 none false false FetchResult.err SignResult.err
      requestC1).header "User-Agent" = some ["octelium"] :=
  ⟨rfl, (claim_C7 upstreamC1 none false false FetchResult.err SignResult.err requestC1).1 rfl⟩

def upstreamC8 : Upstream :=
  { url := { scheme := "https", host := "backend.internal" }, hostPort := "", isUser := false }

def requestC8 : Request :=
  { urlScheme := "http", urlHost := "svc", rawQuery := "", host := "svc",
    requestURI := "/", proto := "HTTP/1.1", protoMajor := 1, protoMinor := 1,
    header := [("Origin", [""])] }

/-- C8 counterexample: a request carrying an Origin header whose value is
the empty string. Header.Get returns the empty string for it, so the
Director does not rewrite the header even though the Origin key is present:
afterwards the entry still holds the empty value, not the upstream URL
string, refuting the claim that presence alone triggers the rewrite. -/
theorem claim_C8_counterexample :
    (hlookup requestC8.header "Origin").isSome = true ∧
    hlookup (director upstreamC8 none false false FetchResult.err SignResult.err
      requestC8).header "Origin" = some [""] ∧
    ¬ hget (director upstreamC8 none false false FetchResult.err SignResult.err
      requestC8).header "Origin" = urlString upstreamC8.url := by
  decide

/-- C8 amended: the Origin rewrite is keyed on Header.Get, that is on the
first Origin value being non-empty, not on key presence: when Get yields a
non-empty value the outbound Origin is exactly the upstream URL string;
when it yields the empty string (key absent, value list empty, or first
value empty) the Origin entry is left exactly as it was, so in particular a
request with no Origin header stays without one. -/
theorem claim_C8_amended (up : Upstream) (cfg : Option ServiceConfig) (m h2 : Bool)
    (f : FetchResult) (s : SignResult) (req : Request) :
    (hget req.header "Origin" ≠ "" →
      hlookup (director up cfg m h2 f s req).header "Origin" = some [urlString up.url]) ∧
    (hget req.header "Origin" = "" →
      hlookup (director up cfg m h2 f s req).header "Origin" = hlookup req.header "Origin") := by
  constructor <;> intro hor <;>
    rw [director_hlookup_nonsign _ _ _ _ _ _ _ _ (by decide) (by decide)] <;>
    simp [directorPreSign, stepOrigin_hlookup_self, stepStrip_hget_ne, stepStrip_hlookup_ne,
      stepProto_header, fixWS_hlookup_of_notMem, fixWS_hget_of_notMem, stepUserAgent_hlookup_ne,
      stepUserAgent_hget_ne, stepQuery_header, stepURLHost_header, stepHost_header,
      stepScheme_header, wsKeys, hor]

def requestC8b : Request :=
  { urlScheme := "http", urlHost := "svc", rawQuery := "", host := "svc",
    requestURI := "/", proto := "HTTP/1.1", protoMajor := 1, protoMinor := 1,
    header := [("Origin", ["https://app.example.com"])] }

/-- C8 witness: a request with a non-empty Origin value leaves the Director
with Origin rewritten to the upstream URL string. -/
theorem claim_C8_witness :
    hget requestC8b.header "Origin" ≠ "" ∧
    hlookup (director upstreamC8 none false false FetchResult.err SignResult.err
      requestC8b).header "Origin" = some [urlString upstreamC8.url] :=
  ⟨by decide,
    (claim_C8_amended upstreamC8 none false false FetchResult.err SignResult.err
      requestC8b).1 (by decide)⟩

end Httpg
